import Mathlib

/-!
Shallow embedding of `rllib/core/rl_trainer/tf/tf_rl_trainer.py` (class
`TfRLTrainer`).  Tensors and numpy arrays are modelled as lists of
rationals tagged with a dtype; dictionaries as association lists; Python
exceptions as an `Except PyErr` result.  Behaviour supplied by the
external base class `RLTrainer` or by the TensorFlow framework
(forward pass, loss, autodiff, optimizer numeric step, base-class module
registry operations) is abstracted into an `Externals` structure, since
the source file treats those as external collaborators.  Side effects on
the ordering of operations (gradient-tape context, strategy scope) are
recorded in a trace of events.
-/

namespace TfRLTrainerModel

/-- Module identifiers (Python `ModuleID`, a string). -/
abbrev ModuleID := String

/-- dtypes relevant to the embedding. -/
inductive Dtype
  | float32
  | float64
  | int32
  | int64
deriving DecidableEq, Repr

/-- A raw (host-memory) array as found in a sample batch before conversion. -/
structure RawValue where
  dtype : Dtype
  data : List ℚ
deriving DecidableEq, Repr

/-- A framework tensor: dtype tag plus flat data. -/
structure Tensor where
  dtype : Dtype
  data : List ℚ
deriving DecidableEq, Repr

/-- `tf.convert_to_tensor(value, dtype=dt)`: produces a tensor of the requested
dtype from the raw value. -/
def convert_to_tensor (v : RawValue) (dt : Dtype) : Tensor :=
  { dtype := dt, data := v.data }

/-- A host-memory numpy array (result of `convert_to_numpy`). -/
structure NDArray where
  data : List ℚ
deriving DecidableEq, Repr

/-- Sum of a list of rationals. -/
def listSum (xs : List ℚ) : ℚ := xs.foldr (fun a b => a + b) 0

/-- `np.mean` over a flat list (sum divided by length). -/
def listMean (xs : List ℚ) : ℚ := listSum xs / xs.length

/-- `.mean()` of a numpy array. -/
def ndMean (a : NDArray) : ℚ := listMean a.data

/-- A `MultiAgentBatch`: mapping from module id to a policy batch, itself a
mapping from field name to raw array. -/
structure MultiAgentBatch where
  policy_batches : List (ModuleID × List (String × RawValue))
deriving DecidableEq, Repr

/-- A `NestedDict` of tensors, flattened to its leaves: each leaf is keyed by
the (module id, field name) path. -/
abbrev NestedDict := List ((ModuleID × String) × Tensor)

/-- Association-list lookup (Python `d[k]` / `d.get(k)`). -/
def alookup {α β : Type} [DecidableEq α] : List (α × β) → α → Option β
  | [], _ => none
  | (k, v) :: rest, key => if k = key then some v else alookup rest key

/-- Python `d.get(k, dflt)` on the optimizer config. -/
def dictGet (d : List (String × ℚ)) (k : String) (dflt : ℚ) : ℚ :=
  (alookup d k).getD dflt

/-- Python `set(xs) == set(ys)` on lists of keys. -/
def sameKeySet (xs ys : List String) : Bool :=
  xs.all (fun k => ys.contains k) && ys.all (fun k => xs.contains k)

/-- Reference to a parameter (Python `param.ref()`, hashable identity). -/
abbrev ParamRef := Nat

/-- A framework variable: identity reference plus current value. -/
structure Variable where
  ref : ParamRef
  value : List ℚ
deriving DecidableEq, Repr

/-- The trainer parameter dictionary `self._params`. -/
abbrev Params := List (ParamRef × Variable)

/-- A gradient dictionary keyed like `self._params`. -/
abbrev Grads := List (ParamRef × Tensor)

/-- A keras optimizer object; `configure_optimizers` builds Adam instances. -/
inductive Optimizer
  | adam (learning_rate : ℚ)
deriving DecidableEq, Repr

/-- An RL module: its trainable variables and its `get_weights()` arrays. -/
structure RLModule where
  trainable_variables : List Variable
  weights : List (List ℚ)
deriving DecidableEq, Repr

/-- Output of `forward_train`: mapping from output name to tensor. -/
abbrev FwdOut := List (String × Tensor)

/-- Loss dictionary: mapping from loss name to tensor. -/
abbrev LossDict := List (String × Tensor)

/-- Result of `compute_loss`: either a bare tensor or a loss dictionary
(Python `Union[TensorType, Mapping[str, Any]]`). -/
abbrev LossOut := Tensor ⊕ LossDict

/-- A gradient tape: records the forward pass and the loss computation that
ran inside the `with tf.GradientTape() as tape` block. -/
structure GradientTape where
  recorded_fwd : FwdOut
  recorded_loss : LossOut
deriving DecidableEq, Repr

/-- Python exceptions raised by the embedded code paths. -/
inductive PyErr
  | valueError (msg : String)
  | keyError
  | typeError
deriving DecidableEq, Repr

/-- Marker for what `self._update_fn` currently holds: the tf.function-traced
wrapper of `_do_update_fn`, or `_do_update_fn` itself (eager). -/
inductive UpdateFnRepr
  | traced
  | eager
deriving DecidableEq, Repr

/-- State of a `TfRLTrainer` instance. -/
structure TfRLTrainer where
  optimizer_config : List (String × ℚ)
  distributed : Bool
  in_test : Bool
  enable_tf_function : Bool
  update_fn_repr : UpdateFnRepr
  module : List (ModuleID × RLModule)
  params : Params
  optim_to_param : List (Optimizer × List ParamRef)
deriving DecidableEq, Repr

/-- The constructor `TfRLTrainer.__init__`: stores the flags and sets
`self._update_fn` to `tf.function(self._do_update_fn)` when
`enable_tf_function` is true, and to `self._do_update_fn` otherwise.  The
module registry, parameter dictionary and optimizer bookkeeping are built by
the base-class constructor and passed in here. -/
def mkTrainer (cfg : List (String × ℚ)) (distributed in_test enable : Bool)
    (module : List (ModuleID × RLModule)) (params : Params)
    (otp : List (Optimizer × List ParamRef)) : TfRLTrainer :=
  { optimizer_config := cfg
    distributed := distributed
    in_test := in_test
    enable_tf_function := enable
    update_fn_repr := if enable then .traced else .eager
    module := module
    params := params
    optim_to_param := otp }

/-- External collaborators of the source file: methods of the external base
class `RLTrainer` and framework primitives whose behaviour is not defined in
this file. -/
structure Externals where
  forward_train : List (ModuleID × RLModule) → NestedDict → FwdOut
  compute_loss : FwdOut → NestedDict → LossOut
  grad : GradientTape → Tensor → Variable → Tensor
  on_after_compute_gradients : Grads → Grads
  optim_apply : Optimizer → List (Tensor × Variable) → List Variable
  super_add_module : TfRLTrainer → ModuleID →
    List (ModuleID × RLModule) × Params × List (Optimizer × List ParamRef)
  super_remove_module : TfRLTrainer → ModuleID →
    List (ModuleID × RLModule) × Params × List (Optimizer × List ParamRef)
  make_module : List (ModuleID × RLModule)

/-- Trace events recording the order of the side-effecting operations. -/
inductive Ev
  | convertBatchEv
  | tapeEnter
  | forwardTrainEv
  | computeLossEv
  | tapeExit
  | computeGradientsEv
  | onAfterGradientsEv
  | applyGradientsEv
  | compileResultsEv
  | strategyRunEv
  | strategyCreateEv
  | scopeEnter
  | makeModuleEv
  | superAddEv (mid : ModuleID)
  | superRemoveEv (mid : ModuleID)
  | scopeExit
deriving DecidableEq, Repr

/-- The class constant `TfRLTrainer.TOTAL_LOSS_KEY`. -/
def TOTAL_LOSS_KEY : String := "total_loss"

/-- `TfRLTrainer.convert_batch_to_tf_tensor`: builds a `NestedDict` from
`batch.policy_batches` and converts every leaf with
`tf.convert_to_tensor(value, dtype=tf.float32)`. -/
def convert_batch_to_tf_tensor (batch : MultiAgentBatch) : NestedDict :=
  (batch.policy_batches.map
    (fun m => m.2.map
      (fun kv => ((m.1, kv.1), convert_to_tensor kv.2 Dtype.float32)))).flatten

/-- Modelled from the spec: the gradient tape computes the gradient of the
given scalar with respect to each parameter in the structure passed to
`tape.gradient`, returning a dictionary with the same keys
(the spec's gradient tape "records operations performed on tensors so
gradients with respect to recorded inputs can later be computed"). -/
def tape_gradient (E : Externals) (tape : GradientTape) (l : Tensor)
    (params : Params) : Grads :=
  params.map (fun p => (p.1, E.grad tape l p.2))

/-- `TfRLTrainer.compute_gradients`: `tape.gradient(loss["total_loss"],
self._params)`.  Subscripting a bare tensor with a string key raises
`TypeError`; a mapping without the key raises `KeyError`. -/
def compute_gradients (E : Externals) (t : TfRLTrainer) (loss : LossOut)
    (tape : GradientTape) : Except PyErr Grads :=
  match loss with
  | .inl _ => .error .typeError
  | .inr d =>
    match alookup d "total_loss" with
    | none => .error .keyError
    | some l => .ok (tape_gradient E tape l t.params)

/-- Look up every reference in a dictionary; a missing key raises `KeyError`
(Python list comprehension `[d[r] for r in refs]`). -/
def lookupAll {β : Type} (d : List (ParamRef × β)) :
    List ParamRef → Except PyErr (List β)
  | [] => .ok []
  | r :: rs =>
    match alookup d r with
    | none => .error .keyError
    | some v =>
      match lookupAll d rs with
      | .error e => .error e
      | .ok vs => .ok (v :: vs)

/-- Overwrite the entry for one reference in the parameter dictionary
(the in-place mutation performed by `optim.apply_gradients`). -/
def setParam (ps : Params) (r : ParamRef) (v : Variable) : Params :=
  ps.map (fun p => if p.1 = r then (r, v) else p)

/-- Write a batch of updated variables back into the parameter dictionary. -/
def writeBack (ps : Params) : List (ParamRef × Variable) → Params
  | [] => ps
  | (r, v) :: rest => writeBack (setParam ps r v) rest

/-- The loop of `TfRLTrainer.apply_gradients`: for each `(optim,
param_ref_seq)` in `self._optim_to_param`, gather the variable list from
`self._params` and the gradient list from `gradients`, then let the
optimizer apply the zipped gradient/variable pairs (mutating the
variables). -/
def apply_gradients_loop (E : Externals) (grads : Grads) :
    Params → List (Optimizer × List ParamRef) → Except PyErr Params
  | ps, [] => .ok ps
  | ps, (optim, refs) :: rest =>
    match lookupAll ps refs with
    | .error e => .error e
    | .ok vars =>
      match lookupAll grads refs with
      | .error e => .error e
      | .ok gs =>
        let newVars := E.optim_apply optim (gs.zip vars)
        apply_gradients_loop E grads (writeBack ps (refs.zip newVars)) rest

/-- `TfRLTrainer.apply_gradients`. -/
def apply_gradients (E : Externals) (t : TfRLTrainer) (gradients : Grads) :
    Except PyErr TfRLTrainer :=
  match apply_gradients_loop E gradients t.params t.optim_to_param with
  | .error e => .error e
  | .ok ps => .ok { t with params := ps }

/-- The `if isinstance(loss, tf.Tensor): loss = {"total_loss": loss}` step of
`_do_update_fn`. -/
def wrap_loss (l : LossOut) : LossDict :=
  match l with
  | .inl T => [("total_loss", T)]
  | .inr d => d

/-- The dictionary returned by `_do_update_fn`. -/
structure UpdateOuts where
  loss : LossDict
  fwd_out : FwdOut
  post_processed_gradients : Grads
deriving DecidableEq, Repr

/-- `TfRLTrainer._do_update_fn`: inside a gradient tape, run `forward_train`
and `compute_loss` (wrapping a bare tensor loss under `"total_loss"`); then
compute gradients from the tape, post-process them with
`on_after_compute_gradients`, apply them, and return the loss, forward
output and post-processed gradients.  Returns the outputs together with the
updated trainer and the trace of performed operations. -/
def do_update_fn (E : Externals) (t : TfRLTrainer) (batch : NestedDict) :
    Except PyErr (UpdateOuts × TfRLTrainer) × List Ev :=
  let fwd_out := E.forward_train t.module batch
  let loss0 := E.compute_loss fwd_out batch
  let loss := wrap_loss loss0
  let tape : GradientTape := { recorded_fwd := fwd_out, recorded_loss := loss0 }
  let pre : List Ev := [.tapeEnter, .forwardTrainEv, .computeLossEv, .tapeExit]
  match compute_gradients E t (Sum.inr loss) tape with
  | .error e => (.error e, pre ++ [.computeGradientsEv])
  | .ok gradients =>
    let gradients2 := E.on_after_compute_gradients gradients
    match apply_gradients E t gradients2 with
    | .error e =>
      (.error e, pre ++ [.computeGradientsEv, .onAfterGradientsEv, .applyGradientsEv])
    | .ok t2 =>
      (.ok ({ loss := loss, fwd_out := fwd_out, post_processed_gradients := gradients2 }, t2),
        pre ++ [.computeGradientsEv, .onAfterGradientsEv, .applyGradientsEv])

/-- Modelled from the spec: `tf.function` traces a Python function into a
compiled graph with the same input/output behaviour (the spec's "optionally
trace that cycle into a compiled graph" selects an execution mode, not a
different function). -/
def tf_function {α β : Type} (f : α → β) : α → β := f

/-- Run `self._update_fn`: the traced wrapper or the eager function,
whichever the trainer currently holds. -/
def run_update_fn (E : Externals) (t : TfRLTrainer) (batch : NestedDict) :
    Except PyErr (UpdateOuts × TfRLTrainer) × List Ev :=
  match t.update_fn_repr with
  | .traced => (tf_function (do_update_fn E t)) batch
  | .eager => do_update_fn E t batch

/-- Modelled from the spec: the mirrored strategy's `run` primitive executes
the given function on the (replicated) arguments and returns the per-replica
results, identified here with the single-program result. -/
def strategy_run {α β : Type} (f : α → β) (x : α) : β := f x

/-- `TfRLTrainer.do_distributed_update`:
`self.strategy.run(self._update_fn, args=(batch,))`. -/
def do_distributed_update (E : Externals) (t : TfRLTrainer)
    (batch : NestedDict) : Except PyErr (UpdateOuts × TfRLTrainer) × List Ev :=
  let r := strategy_run (run_update_fn E t) batch
  (r.1, Ev.strategyRunEv :: r.2)

/-- `convert_to_numpy` on a loss dictionary. -/
def convert_loss_to_numpy (l : LossDict) : List (String × NDArray) :=
  l.map (fun kv => (kv.1, { data := kv.2.data }))

/-- `convert_to_numpy` on the converted batch. -/
def convert_nested_to_numpy (b : NestedDict) :
    List ((ModuleID × String) × NDArray) :=
  b.map (fun kv => (kv.1, { data := kv.2.data }))

/-- `convert_to_numpy` on the gradient dictionary. -/
def convert_grads_to_numpy (g : Grads) : List (ParamRef × NDArray) :=
  g.map (fun kv => (kv.1, { data := kv.2.data }))

/-- `tree.flatten` on the (numpy) gradient dictionary: the list of its leaf
arrays. -/
def tree_flatten_grads (g : List (ParamRef × NDArray)) : List NDArray :=
  g.map (fun kv => kv.2)

/-- The dictionary returned by `compile_results`: its `"loss"` and
`"mean_gradient"` entries, and the `"mean_weight"` entry that is present only
when it was added. -/
structure Results where
  loss : List (String × NDArray)
  mean_gradient : ℚ
  mean_weight : Option (List (ModuleID × ℚ))
deriving DecidableEq, Repr

/-- `TfRLTrainer.compile_results`: convert the loss, batch and gradients to
numpy, report the loss and the mean of the per-gradient means, and when
`self.in_test`, additionally report the per-module mean of weight means. -/
def compile_results (t : TfRLTrainer) (batch : NestedDict) (fwd_out : FwdOut)
    (postprocessed_loss : LossDict) (post_processed_gradients : Grads) :
    Results :=
  let loss_numpy := convert_loss_to_numpy postprocessed_loss
  let _batch_numpy := convert_nested_to_numpy batch
  let grads_numpy := convert_grads_to_numpy post_processed_gradients
  let mean_grads := (tree_flatten_grads grads_numpy).map ndMean
  let _unused := fwd_out
  { loss := loss_numpy
    mean_gradient := listMean mean_grads
    mean_weight :=
      if t.in_test then
        some (t.module.map
          (fun km => (km.1, listMean (km.2.weights.map listMean))))
      else none }

/-- `TfRLTrainer.update`: check that the batch's policy-batch keys equal the
module keys (else `ValueError`), convert the batch to tensors, run the update
function (directly, or through `do_distributed_update` when distributed), and
compile the results.  Returns the result (or the exception), the trainer
state after the call, and the trace. -/
def update (E : Externals) (t : TfRLTrainer) (batch : MultiAgentBatch) :
    Except PyErr Results × TfRLTrainer × List Ev :=
  if sameKeySet (batch.policy_batches.map (fun p => p.1))
      (t.module.map (fun p => p.1)) = false then
    (.error (.valueError
      ("Batch keys must match module keys. RLTrainer does not " ++
       "currently support training of only some modules and not others")),
     t, [])
  else
    let cb := convert_batch_to_tf_tensor batch
    let r :=
      if t.distributed then do_distributed_update E t cb
      else run_update_fn E t cb
    match r.1 with
    | .error e => (.error e, t, Ev.convertBatchEv :: r.2)
    | .ok (outs, t2) =>
      (.ok (compile_results t2 cb outs.fwd_out outs.loss
              outs.post_processed_gradients),
       t2, Ev.convertBatchEv :: r.2 ++ [Ev.compileResultsEv])

/-- `TfRLTrainer.configure_optimizers`: one `(trainable_variables, Adam(lr))`
pair per module key, with `lr = self.optimizer_config.get("lr", 1e-3)`. -/
def configure_optimizers (t : TfRLTrainer) : List (List Variable × Optimizer) :=
  let lr := dictGet t.optimizer_config "lr" (1 / 1000)
  t.module.map (fun km => (km.2.trainable_variables, Optimizer.adam lr))

/-- `TfRLTrainer.get_optimizer_obj`: `optimizer_cls(learning_rate=lr)` with
`lr = self.optimizer_config.get("lr", 1e-3)`. -/
def get_optimizer_obj (t : TfRLTrainer) (optimizer_cls : ℚ → Optimizer) :
    Optimizer :=
  let lr := dictGet t.optimizer_config "lr" (1 / 1000)
  optimizer_cls lr

/-- `TfRLTrainer.get_parameters`. -/
def get_parameters (m : RLModule) : List Variable :=
  m.trainable_variables

/-- `TfRLTrainer.get_param_ref`. -/
def get_param_ref (param : Variable) : ParamRef :=
  param.ref

/-- `TfRLTrainer._make_distributed`: create the multi-worker mirrored
strategy, then build the module inside `self.strategy.scope()`. -/
def make_distributed (E : Externals) (t : TfRLTrainer) :
    List (ModuleID × RLModule) × List Ev :=
  let _t := t
  (E.make_module,
   [Ev.strategyCreateEv, Ev.scopeEnter, Ev.makeModuleEv, Ev.scopeExit])

/-- `TfRLTrainer.add_module`: call the base-class `add_module` (inside
`self.strategy.scope()` when distributed), then re-trace `self._update_fn`
when `enable_tf_function` holds. -/
def add_module (E : Externals) (t : TfRLTrainer) (module_id : ModuleID) :
    TfRLTrainer × List Ev :=
  let s := E.super_add_module t module_id
  let t1 : TfRLTrainer :=
    { t with module := s.1, params := s.2.1, optim_to_param := s.2.2 }
  let tr : List Ev :=
    if t.distributed then [.scopeEnter, .superAddEv module_id, .scopeExit]
    else [.superAddEv module_id]
  if t1.enable_tf_function then
    ({ t1 with update_fn_repr := .traced }, tr)
  else (t1, tr)

/-- `TfRLTrainer.remove_module`: call the base-class `remove_module` (inside
`self.strategy.scope()` when distributed), then re-trace `self._update_fn`
when `enable_tf_function` holds. -/
def remove_module (E : Externals) (t : TfRLTrainer) (module_id : ModuleID) :
    TfRLTrainer × List Ev :=
  let s := E.super_remove_module t module_id
  let t1 : TfRLTrainer :=
    { t with module := s.1, params := s.2.1, optim_to_param := s.2.2 }
  let tr : List Ev :=
    if t.distributed then [.scopeEnter, .superRemoveEv module_id, .scopeExit]
    else [.superRemoveEv module_id]
  if t1.enable_tf_function then
    ({ t1 with update_fn_repr := .traced }, tr)
  else (t1, tr)

/-! ### Concrete instances used to exercise the definitions -/

/-- A concrete variable. -/
def v0 : Variable := { ref := 0, value := [1, 2] }

/-- A concrete module. -/
def m0 : RLModule := { trainable_variables := [v0], weights := [[1, 2]] }

/-- A concrete trainer: non-distributed, `in_test = true`,
`enable_tf_function = true`, one module `"m"`. -/
def t0 : TfRLTrainer :=
  mkTrainer [("lr", 1 / 2)] false true true [("m", m0)] [(0, v0)]
    [(Optimizer.adam (1 / 2), [0])]

/-- The same trainer with `distributed = true`. -/
def t0d : TfRLTrainer :=
  mkTrainer [("lr", 1 / 2)] true true true [("m", m0)] [(0, v0)]
    [(Optimizer.adam (1 / 2), [0])]

/-- Concrete externals: a forward pass summing each leaf, a constant bare
tensor loss, a gradient scaling the variable value by the loss sum, identity
post-processing, and an optimizer step replacing each variable by itself. -/
def E0 : Externals :=
  { forward_train := fun _ b =>
      [("out", { dtype := Dtype.float32, data := b.map (fun kv => listSum kv.2.data) })]
    compute_loss := fun _ _ => Sum.inl { dtype := Dtype.float32, data := [2] }
    grad := fun _ _ v => { dtype := Dtype.float32, data := v.value }
    on_after_compute_gradients := fun g => g
    optim_apply := fun _ pairs => pairs.map (fun p => p.2)
    super_add_module := fun t mid =>
      (t.module ++ [(mid, { trainable_variables := [], weights := [] })],
       t.params, t.optim_to_param)
    super_remove_module := fun t mid =>
      (t.module.filter (fun km => km.1 != mid), t.params, t.optim_to_param)
    make_module := [("m", m0)] }

/-- A concrete batch whose policy-batch keys match `t0`'s module keys; its
leaf has dtype float64 to exercise the conversion. -/
def b0 : MultiAgentBatch :=
  { policy_batches := [("m", [("obs", { dtype := Dtype.float64, data := [3, 4] })])] }

/-- A concrete batch whose keys do not match `t0`'s module keys. -/
def bBad : MultiAgentBatch :=
  { policy_batches := [("x", [("obs", { dtype := Dtype.float64, data := [3] })])] }

/-! ### Named stages of the non-distributed update cycle -/

/-- The forward output computed by the update cycle on a batch. -/
def cycle_fwd (E : Externals) (t : TfRLTrainer) (b : MultiAgentBatch) : FwdOut :=
  E.forward_train t.module (convert_batch_to_tf_tensor b)

/-- The (wrapped) loss dictionary computed by the update cycle on a batch. -/
def cycle_loss (E : Externals) (t : TfRLTrainer) (b : MultiAgentBatch) : LossDict :=
  wrap_loss (E.compute_loss (cycle_fwd E t b) (convert_batch_to_tf_tensor b))

/-- The gradient tape produced by the update cycle on a batch: it recorded
the forward pass and the loss computation. -/
def cycle_tape (E : Externals) (t : TfRLTrainer) (b : MultiAgentBatch) :
    GradientTape :=
  { recorded_fwd := cycle_fwd E t b
    recorded_loss := E.compute_loss (cycle_fwd E t b) (convert_batch_to_tf_tensor b) }

/-! ### Claim theorems -/

/-- C3: `configure_optimizers` returns exactly one
`(trainable_variables, Adam optimizer)` pair per module key, and both
`configure_optimizers` and `get_optimizer_obj` use learning rate
`optimizer_config["lr"]`, defaulting to `1e-3` when the key is absent. -/
theorem configure_optimizers_spec (t : TfRLTrainer) (optimizer_cls : ℚ → Optimizer) :
    (configure_optimizers t).length = t.module.length ∧
    configure_optimizers t =
      t.module.map (fun km =>
        (km.2.trainable_variables,
         Optimizer.adam (dictGet t.optimizer_config "lr" (1 / 1000)))) ∧
    get_optimizer_obj t optimizer_cls =
      optimizer_cls (dictGet t.optimizer_config "lr" (1 / 1000)) ∧
    (alookup t.optimizer_config "lr" = none →
      dictGet t.optimizer_config "lr" (1 / 1000) = 1 / 1000) ∧
    (∀ v, alookup t.optimizer_config "lr" = some v →
      dictGet t.optimizer_config "lr" (1 / 1000) = v) := by
  refine ⟨by simp [configure_optimizers], rfl, rfl, ?_, ?_⟩
  · intro h; simp [dictGet, h]
  · intro v h; simp [dictGet, h]

/-- Witness for C3: evaluated on the concrete trainer `t0`, whose config sets
`lr` to `1/2`. -/
theorem configure_optimizers_spec_witness :
    configure_optimizers t0 =
      [([v0], Optimizer.adam (dictGet t0.optimizer_config "lr" (1 / 1000)))] ∧
    dictGet t0.optimizer_config "lr" (1 / 1000) = 1 / 2 := by
  have h := configure_optimizers_spec t0 Optimizer.adam
  exact ⟨by rw [h.2.1]; rfl, h.2.2.2.2 (1 / 2) rfl⟩

/-- C6: `compile_results` reports the loss converted to numpy and the mean of
the per-gradient means of the flattened post-processed gradients; the
`mean_weight` entry (per-module mean of weight means) is present iff
`in_test`. -/
theorem compile_results_spec (t : TfRLTrainer) (batch : NestedDict)
    (fwd_out : FwdOut) (loss : LossDict) (grads : Grads) :
    (compile_results t batch fwd_out loss grads).loss = convert_loss_to_numpy loss ∧
    (compile_results t batch fwd_out loss grads).mean_gradient =
      listMean ((tree_flatten_grads (convert_grads_to_numpy grads)).map ndMean) ∧
    ((compile_results t batch fwd_out loss grads).mean_weight.isSome ↔
      t.in_test = true) ∧
    (t.in_test = true →
      (compile_results t batch fwd_out loss grads).mean_weight =
        some (t.module.map
          (fun km => (km.1, listMean (km.2.weights.map listMean))))) := by
  refine ⟨rfl, rfl, ?_, ?_⟩
  · cases h : t.in_test <;> simp [compile_results, h]
  · intro h; simp [compile_results, h]

/-- Witness for C6: evaluated on the concrete trainer `t0`
(`in_test = true`) and the update cycle outputs of the concrete batch. -/
theorem compile_results_spec_witness :
    (compile_results t0 (convert_batch_to_tf_tensor b0) [] [] []).mean_weight =
      some (t0.module.map
        (fun km => (km.1, listMean (km.2.weights.map listMean)))) :=
  (compile_results_spec t0 (convert_batch_to_tf_tensor b0) [] [] []).2.2.2 rfl

/-- C7: `compute_gradients` returns the tape gradients of the single scalar
`loss["total_loss"]` with respect to every parameter registered in
`self._params`, keyed exactly like the parameter dictionary. -/
theorem compute_gradients_spec (E : Externals) (t : TfRLTrainer) (d : LossDict)
    (tape : GradientTape) (l : Tensor) (h : alookup d "total_loss" = some l) :
    compute_gradients E t (Sum.inr d) tape = .ok (tape_gradient E tape l t.params) ∧
    (tape_gradient E tape l t.params).map (fun p => p.1) =
      t.params.map (fun p => p.1) := by
  exact ⟨by simp [compute_gradients, h], by simp [tape_gradient]⟩

/-- Witness for C7: evaluated on the concrete externals and trainer, with a
loss dictionary containing the key `"total_loss"`. -/
theorem compute_gradients_spec_witness :
    compute_gradients E0 t0
        (Sum.inr [("total_loss", { dtype := Dtype.float32, data := [2] })])
        (cycle_tape E0 t0 b0) =
      .ok (tape_gradient E0 (cycle_tape E0 t0 b0)
            { dtype := Dtype.float32, data := [2] } t0.params) :=
  (compute_gradients_spec E0 t0
    [("total_loss", { dtype := Dtype.float32, data := [2] })]
    (cycle_tape E0 t0 b0) { dtype := Dtype.float32, data := [2] } rfl).1

/-- C9: `_do_update_fn` wraps a bare tensor loss into a mapping under
`"total_loss"` (the `TOTAL_LOSS_KEY` constant), so whenever `compute_loss`
returns a bare tensor or a mapping containing `"total_loss"`, the lookup
`loss["total_loss"]` in `compute_gradients` succeeds. -/
theorem total_loss_key_safe (E : Externals) (t : TfRLTrainer)
    (tape : GradientTape) (loss0 : LossOut)
    (h : (∃ T, loss0 = Sum.inl T) ∨
      ∃ d, loss0 = Sum.inr d ∧ alookup d TOTAL_LOSS_KEY ≠ none) :
    (∀ T, loss0 = Sum.inl T → wrap_loss loss0 = [(TOTAL_LOSS_KEY, T)]) ∧
    ∃ g, compute_gradients E t (Sum.inr (wrap_loss loss0)) tape = .ok g := by
  constructor
  · intro T hT; subst hT; rfl
  · rcases h with ⟨T, rfl⟩ | ⟨d, rfl, hd⟩
    · exact ⟨tape_gradient E tape T t.params,
        by simp [compute_gradients, wrap_loss, alookup]⟩
    · cases hl : alookup d "total_loss" with
      | none => exact absurd hl hd
      | some l => exact ⟨tape_gradient E tape l t.params,
          by simp [compute_gradients, wrap_loss, hl]⟩

/-- Witness for C9: evaluated on a bare tensor loss. -/
theorem total_loss_key_safe_witness :
    ∃ g, compute_gradients E0 t0
        (Sum.inr (wrap_loss (Sum.inl { dtype := Dtype.float32, data := [2] })))
        (cycle_tape E0 t0 b0) = .ok g :=
  (total_loss_key_safe E0 t0 (cycle_tape E0 t0 b0)
    (Sum.inl { dtype := Dtype.float32, data := [2] })
    (Or.inl ⟨_, rfl⟩)).2

/-- C10: `convert_batch_to_tf_tensor` builds a `NestedDict` from the batch's
`policy_batches` whose every leaf is a float32 tensor regardless of the
original dtype; the keys and data come from the policy batches unchanged;
and `update` applies the conversion before the update cycle whenever the
batch is accepted. -/
theorem convert_batch_to_tf_tensor_spec (b : MultiAgentBatch) (E : Externals)
    (t : TfRLTrainer)
    (hk : sameKeySet (b.policy_batches.map (fun p => p.1))
      (t.module.map (fun p => p.1)) = true) :
    (∀ p ∈ convert_batch_to_tf_tensor b, p.2.dtype = Dtype.float32) ∧
    ((convert_batch_to_tf_tensor b).map (fun p => (p.1, p.2.data)) =
      (b.policy_batches.map
        (fun m => m.2.map (fun kv => ((m.1, kv.1), kv.2.data)))).flatten) ∧
    ∃ tr, (update E t b).2.2 = Ev.convertBatchEv :: tr := by
  refine ⟨?_, ?_, ?_⟩
  · intro p hp
    simp only [convert_batch_to_tf_tensor, List.mem_flatten, List.mem_map] at hp
    obtain ⟨l, ⟨m, _, rfl⟩, hpl⟩ := hp
    obtain ⟨kv, _, rfl⟩ := List.mem_map.mp hpl
    rfl
  · unfold convert_batch_to_tf_tensor
    rw [List.map_flatten, List.map_map]
    congr 1
    apply List.map_congr_left
    intro m _
    simp [List.map_map, convert_to_tensor, Function.comp]
  · cases hr : (if t.distributed
        then do_distributed_update E t (convert_batch_to_tf_tensor b)
        else run_update_fn E t (convert_batch_to_tf_tensor b)).1 with
    | error e =>
      exact ⟨(if t.distributed
          then do_distributed_update E t (convert_batch_to_tf_tensor b)
          else run_update_fn E t (convert_batch_to_tf_tensor b)).2,
        by simp [update, hk, hr]⟩
    | ok p =>
      exact ⟨(if t.distributed
          then do_distributed_update E t (convert_batch_to_tf_tensor b)
          else run_update_fn E t (convert_batch_to_tf_tensor b)).2 ++
          [Ev.compileResultsEv],
        by simp [update, hk, hr]⟩

/-- Witness for C10: evaluated on the concrete batch `b0` (whose leaf dtype
is float64) and the matching trainer `t0`. -/
theorem convert_batch_to_tf_tensor_spec_witness :
    (∀ p ∈ convert_batch_to_tf_tensor b0, p.2.dtype = Dtype.float32) ∧
    ∃ tr, (update E0 t0 b0).2.2 = Ev.convertBatchEv :: tr :=
  ⟨(convert_batch_to_tf_tensor_spec b0 E0 t0 (by decide)).1,
   (convert_batch_to_tf_tensor_spec b0 E0 t0 (by decide)).2.2⟩

/-! ### Helper lemmas -/

/-- Both representations of `self._update_fn` run `_do_update_fn`. -/
theorem run_update_fn_eq (E : Externals) (t : TfRLTrainer) (batch : NestedDict) :
    run_update_fn E t batch = do_update_fn E t batch := by
  cases h : t.update_fn_repr <;> simp [run_update_fn, h, tf_function]

/-- The only exception `compute_gradients` raises on a loss mapping is
`KeyError`. -/
theorem compute_gradients_inr_error (E : Externals) (t : TfRLTrainer)
    (d : LossDict) (tape : GradientTape) (e : PyErr)
    (h : compute_gradients E t (Sum.inr d) tape = .error e) : e = .keyError := by
  simp only [compute_gradients] at h
  split at h
  · exact (Except.error.inj h).symm
  · exact absurd h (by simp)

/-- `lookupAll` fails only with `KeyError`. -/
theorem lookupAll_error {β : Type} (d : List (ParamRef × β))
    (rs : List ParamRef) (e : PyErr) (h : lookupAll d rs = .error e) :
    e = .keyError := by
  induction rs with
  | nil => simp [lookupAll] at h
  | cons r rs ih =>
    simp only [lookupAll] at h
    split at h
    · exact (Except.error.inj h).symm
    · split at h
      · rename_i e' heq
        have he := Except.error.inj h
        subst he
        exact ih heq
      · exact absurd h (by simp)

/-- The `apply_gradients` loop fails only with `KeyError`. -/
theorem apply_gradients_loop_error (E : Externals) (grads : Grads)
    (ps : Params) (otp : List (Optimizer × List ParamRef)) (e : PyErr)
    (h : apply_gradients_loop E grads ps otp = .error e) : e = .keyError := by
  induction otp generalizing ps with
  | nil => simp [apply_gradients_loop] at h
  | cons p rest ih =>
    obtain ⟨optim, refs⟩ := p
    simp only [apply_gradients_loop] at h
    split at h
    · rename_i e1 heq
      have he := Except.error.inj h
      subst he
      exact lookupAll_error ps refs _ heq
    · split at h
      · rename_i e1 heq
        have he := Except.error.inj h
        subst he
        exact lookupAll_error grads refs _ heq
      · exact ih _ h

/-- `apply_gradients` fails only with `KeyError`. -/
theorem apply_gradients_error (E : Externals) (t : TfRLTrainer) (g : Grads)
    (e : PyErr) (h : apply_gradients E t g = .error e) : e = .keyError := by
  simp only [apply_gradients] at h
  split at h
  · rename_i e1 heq
    have he := Except.error.inj h
    subst he
    exact apply_gradients_loop_error E g _ _ _ heq
  · exact absurd h (by simp)

/-- `_do_update_fn` fails only with `KeyError`. -/
theorem do_update_fn_error (E : Externals) (t : TfRLTrainer) (cb : NestedDict)
    (e : PyErr) (h : (do_update_fn E t cb).1 = .error e) : e = .keyError := by
  simp only [do_update_fn] at h
  split at h
  · rename_i e1 heq
    have he := Except.error.inj h
    subst he
    exact compute_gradients_inr_error E t _ _ _ heq
  · split at h
    · rename_i e1 heq
      have he := Except.error.inj h
      subst he
      exact apply_gradients_error E t _ _ heq
    · exact absurd h (by simp)

/-- The dispatched update path (distributed or not) fails only with
`KeyError`. -/
theorem update_path_error (E : Externals) (t : TfRLTrainer) (cb : NestedDict)
    (e : PyErr)
    (h : (if t.distributed = true then do_distributed_update E t cb
      else run_update_fn E t cb).1 = .error e) : e = .keyError := by
  cases hd : t.distributed <;>
    simp only [hd, if_true, if_false, Bool.false_eq_true,
      do_distributed_update, strategy_run, run_update_fn_eq] at h <;>
    exact do_update_fn_error E t cb e h

/-! ### Claim theorems (control flow) -/

/-- C1: in non-distributed mode, `update` on an accepted batch runs
`forward_train` and `compute_loss` inside the gradient-tape context, computes
the gradients from that tape, post-processes them with
`on_after_compute_gradients`, applies them, and returns `compile_results`
applied to the converted batch, the forward output, the loss, and the
post-processed gradients, in exactly that order. -/
theorem update_nondistributed_cycle (E : Externals) (t : TfRLTrainer)
    (b : MultiAgentBatch) (g : Grads) (t2 : TfRLTrainer)
    (hd : t.distributed = false)
    (hk : sameKeySet (b.policy_batches.map (fun p => p.1))
      (t.module.map (fun p => p.1)) = true)
    (hg : compute_gradients E t (Sum.inr (cycle_loss E t b))
      (cycle_tape E t b) = .ok g)
    (ha : apply_gradients E t (E.on_after_compute_gradients g) = .ok t2) :
    update E t b =
      (.ok (compile_results t2 (convert_batch_to_tf_tensor b) (cycle_fwd E t b)
        (cycle_loss E t b) (E.on_after_compute_gradients g)),
       t2,
       [Ev.convertBatchEv, Ev.tapeEnter, Ev.forwardTrainEv, Ev.computeLossEv,
        Ev.tapeExit, Ev.computeGradientsEv, Ev.onAfterGradientsEv,
        Ev.applyGradientsEv, Ev.compileResultsEv]) := by
  simp only [cycle_loss, cycle_fwd, cycle_tape] at hg ha ⊢
  have h1 : do_update_fn E t (convert_batch_to_tf_tensor b) =
      (.ok ({ loss := wrap_loss (E.compute_loss
                (E.forward_train t.module (convert_batch_to_tf_tensor b))
                (convert_batch_to_tf_tensor b)),
              fwd_out := E.forward_train t.module (convert_batch_to_tf_tensor b),
              post_processed_gradients := E.on_after_compute_gradients g }, t2),
       [Ev.tapeEnter, Ev.forwardTrainEv, Ev.computeLossEv, Ev.tapeExit,
        Ev.computeGradientsEv, Ev.onAfterGradientsEv, Ev.applyGradientsEv]) := by
    simp only [do_update_fn, hg, ha]
    rfl
  simp only [update, hk, hd, if_false, Bool.false_eq_true, run_update_fn_eq, h1]
  simp

/-- Witness for C1: the full cycle evaluated on the concrete externals,
trainer and batch. -/
theorem update_nondistributed_cycle_witness :
    update E0 t0 b0 =
      (.ok (compile_results t0 (convert_batch_to_tf_tensor b0)
        (cycle_fwd E0 t0 b0) (cycle_loss E0 t0 b0)
        (E0.on_after_compute_gradients
          [(0, { dtype := Dtype.float32, data := [1, 2] })])),
       t0,
       [Ev.convertBatchEv, Ev.tapeEnter, Ev.forwardTrainEv, Ev.computeLossEv,
        Ev.tapeExit, Ev.computeGradientsEv, Ev.onAfterGradientsEv,
        Ev.applyGradientsEv, Ev.compileResultsEv]) :=
  update_nondistributed_cycle E0 t0 b0
    [(0, { dtype := Dtype.float32, data := [1, 2] })] t0 rfl (by decide) rfl rfl

/-- C2: `update` raises `ValueError` iff the set of policy-batch keys differs
from the set of module keys; in that case it raises before any tensor
conversion or gradient application, leaving the trainer unchanged and the
trace empty. -/
theorem update_value_error_iff (E : Externals) (t : TfRLTrainer)
    (b : MultiAgentBatch) :
    ((∃ msg, (update E t b).1 = .error (.valueError msg)) ↔
      sameKeySet (b.policy_batches.map (fun p => p.1))
        (t.module.map (fun p => p.1)) = false) ∧
    (sameKeySet (b.policy_batches.map (fun p => p.1))
        (t.module.map (fun p => p.1)) = false →
      (update E t b).2.1 = t ∧ (update E t b).2.2 = ([] : List Ev)) := by
  cases hks : sameKeySet (b.policy_batches.map (fun p => p.1))
      (t.module.map (fun p => p.1)) with
  | false =>
    refine ⟨⟨fun _ => rfl, fun _ => ?_⟩, fun _ => by simp [update, hks]⟩
    exact ⟨"Batch keys must match module keys. RLTrainer does not " ++
      "currently support training of only some modules and not others",
      by simp [update, hks]⟩
  | true =>
    refine ⟨⟨?_, fun hf => by simp at hf⟩, fun hf => by simp at hf⟩
    rintro ⟨msg, h⟩
    exfalso
    simp [update, hks] at h
    split at h
    · rename_i heq
      have := update_path_error E t (convert_batch_to_tf_tensor b) _ heq
      rw [this] at h
      exact absurd (Except.error.inj h) (by simp)
    · exact absurd h (by simp)

/-- Witness for C2: on the concrete mismatched batch, `update` leaves the
trainer unchanged and performs no operation. -/
theorem update_value_error_iff_witness :
    (update E0 t0 bBad).2.1 = t0 ∧ (update E0 t0 bBad).2.2 = ([] : List Ev) :=
  (update_value_error_iff E0 t0 bBad).2 (by decide)

/-- C5: on an accepted batch, `update` dispatches exactly one of two ways:
when distributed, the cycle runs via `do_distributed_update`, which runs the
update function under the mirrored strategy's `run` primitive; otherwise the
update function is called directly.  In both cases the returned mapping is
`compile_results` of the cycle's outputs. -/
theorem update_dispatch (E : Externals) (t : TfRLTrainer) (b : MultiAgentBatch)
    (hk : sameKeySet (b.policy_batches.map (fun p => p.1))
      (t.module.map (fun p => p.1)) = true) :
    (t.distributed = true →
      ∀ outs t2,
        (do_distributed_update E t (convert_batch_to_tf_tensor b)).1 =
          .ok (outs, t2) →
        (update E t b).1 = .ok (compile_results t2 (convert_batch_to_tf_tensor b)
          outs.fwd_out outs.loss outs.post_processed_gradients)) ∧
    (t.distributed = false →
      ∀ outs t2,
        (do_update_fn E t (convert_batch_to_tf_tensor b)).1 = .ok (outs, t2) →
        (update E t b).1 = .ok (compile_results t2 (convert_batch_to_tf_tensor b)
          outs.fwd_out outs.loss outs.post_processed_gradients)) ∧
    do_distributed_update E t (convert_batch_to_tf_tensor b) =
      ((strategy_run (run_update_fn E t) (convert_batch_to_tf_tensor b)).1,
       Ev.strategyRunEv ::
         (strategy_run (run_update_fn E t) (convert_batch_to_tf_tensor b)).2) ∧
    (t.distributed = true →
      ∃ tr, (update E t b).2.2 = Ev.convertBatchEv :: Ev.strategyRunEv :: tr) := by
  refine ⟨?_, ?_, rfl, ?_⟩
  · intro hd outs t2 hr
    simp [update, hk, hd, hr]
  · intro hd outs t2 hr
    rw [← run_update_fn_eq] at hr
    simp [update, hk, hd, hr]
  · intro hd
    cases hr : (run_update_fn E t (convert_batch_to_tf_tensor b)).1 with
    | error e =>
      refine ⟨(run_update_fn E t (convert_batch_to_tf_tensor b)).2, ?_⟩
      simp [update, hk, hd, do_distributed_update, strategy_run, hr]
    | ok p =>
      refine ⟨(run_update_fn E t (convert_batch_to_tf_tensor b)).2 ++
        [Ev.compileResultsEv], ?_⟩
      simp [update, hk, hd, do_distributed_update, strategy_run, hr]

/-- Witness for C5: the distributed dispatch evaluated on the concrete
distributed trainer `t0d`. -/
theorem update_dispatch_witness :
    (update E0 t0d b0).1 =
      .ok (compile_results t0d (convert_batch_to_tf_tensor b0)
        (cycle_fwd E0 t0d b0) (cycle_loss E0 t0d b0)
        [(0, { dtype := Dtype.float32, data := [1, 2] })]) :=
  (update_dispatch E0 t0d b0 (by decide)).1 rfl
    { loss := cycle_loss E0 t0d b0, fwd_out := cycle_fwd E0 t0d b0,
      post_processed_gradients := [(0, { dtype := Dtype.float32, data := [1, 2] })] }
    t0d rfl

/-- C8: when the trainer is distributed, module creation in
`_make_distributed` and the base-class module addition and removal in
`add_module` and `remove_module` are all executed inside the mirrored
strategy's scope. -/
theorem distributed_scope_spec (E : Externals) (t : TfRLTrainer)
    (mid : ModuleID) (hd : t.distributed = true) :
    (make_distributed E t).2 =
      [Ev.strategyCreateEv, Ev.scopeEnter, Ev.makeModuleEv, Ev.scopeExit] ∧
    (make_distributed E t).1 = E.make_module ∧
    (add_module E t mid).2 = [Ev.scopeEnter, Ev.superAddEv mid, Ev.scopeExit] ∧
    (remove_module E t mid).2 =
      [Ev.scopeEnter, Ev.superRemoveEv mid, Ev.scopeExit] ∧
    (add_module E t mid).1.module = (E.super_add_module t mid).1 ∧
    (remove_module E t mid).1.module = (E.super_remove_module t mid).1 := by
  refine ⟨rfl, rfl, ?_, ?_, ?_, ?_⟩ <;>
    cases he : t.enable_tf_function <;>
      simp [add_module, remove_module, hd, he]

/-- Witness for C8: evaluated on the concrete distributed trainer `t0d`. -/
theorem distributed_scope_spec_witness :
    (add_module E0 t0d "n").2 =
      [Ev.scopeEnter, Ev.superAddEv "n", Ev.scopeExit] ∧
    (remove_module E0 t0d "n").2 =
      [Ev.scopeEnter, Ev.superRemoveEv "n", Ev.scopeExit] :=
  ⟨(distributed_scope_spec E0 t0d "n" rfl).2.2.1,
   (distributed_scope_spec E0 t0d "n" rfl).2.2.2.1⟩

/-! ### Flag independence of the update result -/

/-- `compute_gradients` does not read the tracing flags. -/
theorem compute_gradients_flag_indep (E : Externals) (t : TfRLTrainer)
    (l : LossOut) (tape : GradientTape) (e : Bool) (r : UpdateFnRepr) :
    compute_gradients E
        { t with enable_tf_function := e, update_fn_repr := r } l tape =
      compute_gradients E t l tape := by
  simp [compute_gradients]

/-- `apply_gradients` does not read the tracing flags: it only rewrites the
parameter dictionary. -/
theorem apply_gradients_flag_indep (E : Externals) (t : TfRLTrainer)
    (g : Grads) (e : Bool) (r : UpdateFnRepr) :
    apply_gradients E { t with enable_tf_function := e, update_fn_repr := r } g =
      (apply_gradients E t g).map
        (fun t2 => { t2 with enable_tf_function := e, update_fn_repr := r }) := by
  simp only [apply_gradients]
  cases h : apply_gradients_loop E g t.params t.optim_to_param <;> simp [h, Except.map]

/-- `compile_results` does not read the tracing flags. -/
theorem compile_results_flag_indep (t : TfRLTrainer) (batch : NestedDict)
    (fwd_out : FwdOut) (loss : LossDict) (grads : Grads) (e : Bool)
    (r : UpdateFnRepr) :
    compile_results { t with enable_tf_function := e, update_fn_repr := r }
        batch fwd_out loss grads =
      compile_results t batch fwd_out loss grads := by
  simp [compile_results]

/-- The first component of the dispatched update path is always that of
`_do_update_fn`, whether distributed or not. -/
theorem dispatch_fst (E : Externals) (t : TfRLTrainer) (cb : NestedDict) :
    (if t.distributed = true then do_distributed_update E t cb
      else run_update_fn E t cb).1 = (do_update_fn E t cb).1 := by
  cases hd : t.distributed <;>
    simp [hd, do_distributed_update, strategy_run, run_update_fn_eq]

/-- The result of `update` on an accepted batch, as a function of the
result of `_do_update_fn` on the converted batch. -/
theorem update_fst (E : Externals) (t : TfRLTrainer) (b : MultiAgentBatch)
    (hk : sameKeySet (b.policy_batches.map (fun p => p.1))
      (t.module.map (fun p => p.1)) = true) :
    (update E t b).1 =
      (match (do_update_fn E t (convert_batch_to_tf_tensor b)).1 with
       | .error e => .error e
       | .ok q => .ok (compile_results q.2 (convert_batch_to_tf_tensor b)
           q.1.fwd_out q.1.loss q.1.post_processed_gradients)) := by
  have hd := dispatch_fst E t (convert_batch_to_tf_tensor b)
  cases hr : (do_update_fn E t (convert_batch_to_tf_tensor b)).1 with
  | error e =>
    rw [hr] at hd
    simp [update, hk, hd, hr]
  | ok q =>
    rw [hr] at hd
    simp [update, hk, hd, hr]

/-- A successful `apply_gradients` only rewrites the parameter dictionary. -/
theorem apply_gradients_ok_shape (E : Externals) (t : TfRLTrainer) (g : Grads)
    (t2 : TfRLTrainer) (h : apply_gradients E t g = .ok t2) :
    ∃ ps, t2 = { t with params := ps } := by
  simp only [apply_gradients] at h
  split at h
  · exact absurd h (by simp)
  · rename_i ps heq
    exact ⟨ps, (Except.ok.inj h).symm⟩

/-- A successful `_do_update_fn` only rewrites the parameter dictionary of
the trainer. -/
theorem do_update_fn_ok_shape (E : Externals) (t : TfRLTrainer)
    (cb : NestedDict) (q : UpdateOuts × TfRLTrainer)
    (h : (do_update_fn E t cb).1 = .ok q) :
    ∃ ps, q.2 = { t with params := ps } := by
  simp only [do_update_fn] at h
  split at h
  · exact absurd h (by simp)
  · split at h
    · exact absurd h (by simp)
    · rename_i t2 heq
      obtain ⟨ps, hps⟩ := apply_gradients_ok_shape E t _ t2 heq
      have hq := Except.ok.inj h
      exact ⟨ps, by rw [← hq]; exact hps⟩

/-- `_do_update_fn` only reads the module, the parameters and the optimizer
bookkeeping of the trainer: two trainers agreeing there produce the same
outputs and trace, and trainers that differ only in the tracing flags in
particular. -/
theorem do_update_fn_congr (E : Externals) (cb : NestedDict)
    (t t' : TfRLTrainer) (hm : t'.module = t.module)
    (hp : t'.params = t.params) (ho : t'.optim_to_param = t.optim_to_param) :
    do_update_fn E t' cb =
      (((do_update_fn E t cb).1).map
        (fun q => (q.1, { t' with params := q.2.params })),
       (do_update_fn E t cb).2) := by
  simp only [do_update_fn, compute_gradients, apply_gradients, hm, hp, ho]
  cases hl : alookup (wrap_loss (E.compute_loss (E.forward_train t.module cb) cb))
      "total_loss" with
  | none => simp [hl, Except.map]
  | some l =>
    simp only [hl]
    cases hloop : apply_gradients_loop E
        (E.on_after_compute_gradients
          (tape_gradient E
            { recorded_fwd := E.forward_train t.module cb,
              recorded_loss := E.compute_loss (E.forward_train t.module cb) cb }
            l t.params))
        t.params t.optim_to_param with
    | error e2 => simp [hloop, Except.map]
    | ok ps => simp [hloop, Except.map]

/-- The first component of `update` (the result or the exception) does not
depend on the tracing flags. -/
theorem update_fst_flag_indep (E : Externals) (t : TfRLTrainer)
    (b : MultiAgentBatch) (e : Bool) (r : UpdateFnRepr) :
    (update E { t with enable_tf_function := e, update_fn_repr := r } b).1 =
      (update E t b).1 := by
  cases hks : sameKeySet (b.policy_batches.map (fun p => p.1))
      (t.module.map (fun p => p.1)) with
  | false =>
    have hks' : sameKeySet (b.policy_batches.map (fun p => p.1))
        (({ t with enable_tf_function := e, update_fn_repr := r } :
          TfRLTrainer).module.map (fun p => p.1)) = false := hks
    simp [update, hks, hks']
  | true =>
    have hks' : sameKeySet (b.policy_batches.map (fun p => p.1))
        (({ t with enable_tf_function := e, update_fn_repr := r } :
          TfRLTrainer).module.map (fun p => p.1)) = true := hks
    rw [update_fst E _ b hks', update_fst E t b hks]
    rw [do_update_fn_congr E (convert_batch_to_tf_tensor b) t
      { t with enable_tf_function := e, update_fn_repr := r } rfl rfl rfl]
    cases hu : (do_update_fn E t (convert_batch_to_tf_tensor b)).1 with
    | error e1 => simp [Except.map]
    | ok q =>
      obtain ⟨ps, hq⟩ := do_update_fn_ok_shape E t (convert_batch_to_tf_tensor b) q hu
      simp [Except.map, hq, compile_results]

/-- C4: the result of `update` is the same whether `enable_tf_function` is
true (the trainer holds the traced update function, re-traced after every
`add_module` and `remove_module`) or false (the trainer holds the eager
function): the flag selects the representation of the same underlying update
function, not its input/output behaviour. -/
theorem enable_tf_function_spec (E : Externals) (cfg : List (String × ℚ))
    (dis it : Bool) (module : List (ModuleID × RLModule)) (params : Params)
    (otp : List (Optimizer × List ParamRef)) (b : MultiAgentBatch)
    (mid : ModuleID) :
    (update E (mkTrainer cfg dis it true module params otp) b).1 =
      (update E (mkTrainer cfg dis it false module params otp) b).1 ∧
    (mkTrainer cfg dis it true module params otp).update_fn_repr = .traced ∧
    (mkTrainer cfg dis it false module params otp).update_fn_repr = .eager ∧
    (add_module E (mkTrainer cfg dis it true module params otp) mid).1.update_fn_repr =
      .traced ∧
    (remove_module E (mkTrainer cfg dis it true module params otp) mid).1.update_fn_repr =
      .traced := by
  refine ⟨?_, rfl, rfl, ?_, ?_⟩
  · have heq : mkTrainer cfg dis it true module params otp =
        { mkTrainer cfg dis it false module params otp with
          enable_tf_function := true, update_fn_repr := .traced } := rfl
    rw [heq, update_fst_flag_indep]
  · simp [add_module, mkTrainer]
  · simp [remove_module, mkTrainer]

end TfRLTrainerModel
